import Mathlib

set_option maxRecDepth 8000

/-!
Verification of the trend-log retrieval and normalization pipeline in
`src/Dashboard_SacStucco_20250711.py` (functions `interpolate_gaps`,
lines 607-662, and `get_trend_data`, lines 664-844).

Modelling conventions:
* Python `float` values are modelled as exact rationals `ℚ`; `datetime`
  instants are modelled as rational numbers of seconds, `timedelta`
  arithmetic becomes rational arithmetic.
* The foreign library functions the pipeline calls for string rendering and
  parsing (`datetime.isoformat`, `strftime`, `datetime.fromisoformat`,
  `float(str)`) are not code of this repository; they are abstracted as a
  record of functions `PyLib` that each theorem quantifies over.
* Fallible Python code is embedded with `Option` (a caught, per-record
  exception: the record is skipped) and `Except String` (an uncaught
  exception that propagates to the route-level `try`).
-/

/-- A JSON value as produced by `r.json()` (Python `json` module output:
`None`/`bool`/numbers/`str`/`list`/`dict`).  Objects keep insertion order,
as Python dicts do; keys are unique in any payload produced by `json`. -/
inductive JVal where
  | null
  | bool (b : Bool)
  | num (q : ℚ)
  | str (s : String)
  | arr (xs : List JVal)
  | obj (fields : List (String × JVal))

/-- One trend row: the dict built at lines 786-791 (real samples) and lines
653-659 (interpolated samples).  Real samples are created without the
`interpolated` key, which we model as `interpolated = false`. -/
structure Row where
  timestamp : String
  temperature : ℚ
  formatted_time : String
  sort_time : ℚ
  interpolated : Bool
deriving DecidableEq, Inhabited, Repr

/-- A row after `del row['sort_time']` (line 811). -/
structure OutRow where
  timestamp : String
  temperature : ℚ
  formatted_time : String
  interpolated : Bool
deriving DecidableEq, Inhabited, Repr

/-- Dropping the `sort_time` key (line 811). -/
def toOut (r : Row) : OutRow :=
  ⟨r.timestamp, r.temperature, r.formatted_time, r.interpolated⟩

/-- The foreign (standard-library) functions used by the pipeline, abstracted:
`fromiso` is `datetime.fromisoformat` (`none` models `ValueError`), `floatStr`
is `float` applied to a string (`none` models `ValueError`), `iso` is
`datetime.isoformat`, `isoSec` is `isoformat(timespec='seconds')`, and
`hm`/`mdhm`/`md` are `strftime` with `'%H:%M'` / `'%m/%d %H:%M'` / `'%m/%d'`. -/
structure PyLib where
  fromiso : String → Option ℚ
  floatStr : String → Option ℚ
  iso : ℚ → String
  isoSec : ℚ → String
  hm : ℚ → String
  mdhm : ℚ → String
  md : ℚ → String

/-- Python `int()` applied to a float: truncation toward zero. -/
def pyInt (q : ℚ) : ℤ := Int.tdiv q.num q.den

/-- Python `round(x)` on an exact value: round half to even. -/
def pyRoundHalfEven (q : ℚ) : ℤ :=
  let f := Int.floor q
  if q - f < 1/2 then f
  else if 1/2 < q - f then f + 1
  else if f % 2 = 0 then f else f + 1

/-- Python `round(x, 2)` (line 655) on an exact value. -/
def round2 (q : ℚ) : ℚ := (pyRoundHalfEven (q * 100) : ℚ) / 100

/-- Dict lookup: `fs[k]` on a Python dict modelled as an ordered
association list (keys unique). -/
def jlookup (fs : List (String × JVal)) (k : String) : Option JVal :=
  match fs.find? (fun p => p.1 == k) with
  | some p => some p.2
  | none => none

/-- Python `fs.get(k, d)`. -/
def jlookupD (fs : List (String × JVal)) (k : String) (d : JVal) : JVal :=
  (jlookup fs k).getD d

/-- Python `k in fs` for a dict. -/
def hasKey (fs : List (String × JVal)) (k : String) : Bool :=
  (jlookup fs k).isSome

/-- The timestamp-label formatter choice at lines 646-651 and 779-784:
`'%H:%M'` for 1h/4h, `'%m/%d %H:%M'` for 12h/24h, `'%m/%d'` otherwise. -/
def fmtFor (L : PyLib) (tr : String) (t : ℚ) : String :=
  if tr = "1h" ∨ tr = "4h" then L.hm t
  else if tr = "12h" ∨ tr = "24h" then L.mdhm t
  else L.md t

/-- The gap-filling step for one adjacent pair, lines 624-660 of
`interpolate_gaps`.  `eim` is `expected_interval_minutes`; times are rational
seconds, so `expected_interval = timedelta(minutes=eim)` is `eim * 60` and
`time_gap.total_seconds()` is `nxt.sort_time - cur.sort_time`.  When the gap
exceeds `expected_interval * 2`, `num_intervals = int(gap / (eim * 60))`
points are considered; if `num_intervals <= 48` the loop
`for j in range(1, num_intervals)` emits one interpolated row per `j`. -/
def fillBetween (L : PyLib) (tr : String) (eim : ℚ) (cur nxt : Row) : List Row :=
  let expectedInterval := eim * 60
  let timeGap := nxt.sort_time - cur.sort_time
  if expectedInterval * 2 < timeGap then
    let numIntervals : ℤ := pyInt (timeGap / (eim * 60))
    if numIntervals ≤ 48 then
      (List.range' 1 (numIntervals.toNat - 1)).map (fun (j : ℕ) =>
        let interpTime := cur.sort_time + expectedInterval * (j : ℚ)
        let ratio : ℚ := (j : ℚ) / (numIntervals : ℚ)
        let interpTemp := cur.temperature + (nxt.temperature - cur.temperature) * ratio
        ⟨L.iso interpTime, round2 interpTemp, fmtFor L tr interpTime, interpTime, true⟩)
    else []
  else []

/-- The traversal of lines 617-661: every row is kept, and after each row
that has a successor the fill for the pair is appended. -/
def interpGapsGo (L : PyLib) (tr : String) (eim : ℚ) : List Row → List Row
  | r :: r2 :: rest => r :: (fillBetween L tr eim r r2 ++ interpGapsGo L tr eim (r2 :: rest))
  | l => l

/-- `interpolate_gaps(rows, expected_interval_minutes, time_range)`,
lines 607-662.  Argument order follows the source. -/
def interpolate_gaps (L : PyLib) (rows : List Row) (eim : ℚ) (tr : String) : List Row :=
  if rows.length < 2 then rows else interpGapsGo L tr eim rows

/-- Python list slicing `l[::step]` for `step ≥ 1` (line 816). -/
def pySliceStep (step : ℕ) : List α → List α
  | [] => []
  | a :: rest => a :: pySliceStep step (rest.drop (step - 1))
termination_by l => l.length
decreasing_by simp [List.length_drop]; omega

/-- The display decimation of lines 814-816, parameterised the way §4.6 of
the spec names it (the source instantiates `maxPoints = 300`):
`if len(rows) > max_points: step = len(rows) // max_points; rows = rows[::step]`. -/
def downsample (maxPoints : ℕ) (l : List α) : List α :=
  if maxPoints < l.length then pySliceStep (l.length / maxPoints) l else l

/-- Metadata keys skipped by the extraction loop (lines 720 and 739). -/
def isMeta (key : String) : Bool := key == "$base" || key == "next"

/-- Python `float(x)` on a JSON value (`none` models the `TypeError` /
`ValueError` caught at line 759): numbers convert, booleans convert to 0/1,
strings go through the library float parser, everything else fails. -/
def pyFloat (L : PyLib) : JVal → Option ℚ
  | .num q => some q
  | .bool b => some (if b then 1 else 0)
  | .str s => L.floatStr s
  | _ => none

/-- The fallback scan of lines 753-760: `for k, w in ld.items()`, taking the
first entry that is a dict with a `value` key whose value converts with
`float`; conversion failures are caught and the scan continues. -/
def loopVal (L : PyLib) : List (String × JVal) → Option JVal
  | [] => none
  | (_, w) :: rest =>
    match w with
    | .obj wf =>
      if hasKey wf "value" then
        match pyFloat L (jlookupD wf "value" .null) with
        | some q => some (.num q)
        | none => loopVal L rest
      else loopVal L rest
    | _ => loopVal L rest

/-- Value selection for a dict `logDatum` (lines 746-760): prefer
`val = ld["real-value"]["value"]` when `real-value` maps to a dict carrying
`value` (the raw JSON value is kept, uncoerced).  JSON `null` deserializes
to Python `None`, so a null `value` leaves `val is None` true at line 753
and the fallback `*-value` scan over all entries still runs; the scan also
runs when `real-value` is absent or not a dict with `value`. -/
def objSelectVal (L : PyLib) (lf : List (String × JVal)) : Option JVal :=
  let val1 : Option JVal :=
    match jlookup lf "real-value" with
    | some (.obj rf) => jlookup rf "value"
    | _ => none
  match val1 with
  | some .null => loopVal L lf
  | some v => some v
  | none => loopVal L lf

/-- Lines 743-760 on an arbitrary `ld = v.get("logDatum", dict())`.
A non-dict `ld` raises: `"real-value" in ld` is a `TypeError` for
numbers/booleans/`None`; for strings and lists the membership test runs but
then either `ld["real-value"]` (`TypeError`, line 748) or `ld.items()`
(`AttributeError`, line 754) raises.  Those exceptions are not caught by any
per-record handler, so they surface as an `Except.error`. -/
def selectVal (L : PyLib) : JVal → Except String (Option JVal)
  | .obj lf => .ok (objSelectVal L lf)
  | .str _ => .error "TypeError: string log datum"
  | .arr _ => .error "TypeError: list log datum"
  | _ => .error "TypeError: log datum is not iterable"

/-- Python subscription `j[k]` with a string key: dict lookup (`KeyError`
when absent), `TypeError` on any non-dict. -/
def pyIndexStr : JVal → String → Except String JVal
  | .obj fs, k =>
    match jlookup fs k with
    | some v => .ok v
    | none => .error "KeyError"
  | _, _ => .error "TypeError: not subscriptable"

/-- `timestamp_str.split('.')[0] if '.' in timestamp_str else timestamp_str`
(lines 722 and 776). -/
def stripFrac (s : String) : String :=
  if s.contains '.' then (s.splitOn ".").headD s else s

/-- The timestamp normalization of lines 771-777: strings carrying a `Z`, a
`+`, or more than two `-` are handed to `fromisoformat` after
`replace('Z', '+00:00')`; otherwise the fractional-second suffix is stripped
and the naive result is interpreted as UTC (`replace(tzinfo=utc)` retags the
instant, leaving its value unchanged in this model). -/
def parseTs (L : PyLib) (s : String) : Option ℚ :=
  if s.contains 'Z' ∨ s.contains '+' ∨ s.data.count '-' > 2 then
    L.fromiso (s.replace "Z" "+00:00")
  else
    L.fromiso (stripFrac s)

/-- The body of the `try` at lines 768-791, which catches every exception
(line 793) and skips the record.  A non-string timestamp value always fails
inside the `try` (`'Z' in ts` / `ts.replace` / `fromisoformat` raise), hence
`none`.  For a string: parse the timestamp, then build the row with
`float(val)` (line 788), which may itself raise and skip. -/
def tryParseRow (L : PyLib) (tr : String) (val : JVal) (tsVal : JVal) : Option Row :=
  match tsVal with
  | .str s =>
    match parseTs L s with
    | some dt =>
      match pyFloat L val with
      | some temp => some ⟨s, temp, fmtFor L tr dt, dt, false⟩
      | none => none
    | none => none
  | _ => none

/-- One iteration of the extraction loop, lines 737-796.
`.ok none` is a skipped record (`continue`), `.ok (some row)` a parsed one,
`.error` an exception that escapes to the route-level handler: the value
selection on a non-dict `logDatum`, or `v["timestamp"]["value"]` (line 767,
*outside* the `try`) failing. -/
def extractRecord (L : PyLib) (tr : String) (key : String) (v : JVal) :
    Except String (Option Row) :=
  if isMeta key then .ok none
  else
    match v with
    | .obj fields =>
      if (jlookup fields "timestamp").isNone then .ok none
      else
        match selectVal L (jlookupD fields "logDatum" (.obj [])) with
        | .error e => .error e
        | .ok none => .ok none
        | .ok (some val) =>
          match pyIndexStr (jlookupD fields "timestamp" .null) "value" with
          | .error e => .error e
          | .ok tsVal => .ok (tryParseRow L tr val tsVal)
    | _ => .ok none

/-- The whole extraction loop over `data.items()` (lines 736-796),
accumulating parsed rows in page order. -/
def extractRows (L : PyLib) (tr : String) : List (String × JVal) → Except String (List Row)
  | [] => .ok []
  | (k, v) :: rest =>
    match extractRecord L tr k v with
    | .error e => .error e
    | .ok r? =>
      match extractRows L tr rest with
      | .error e => .error e
      | .ok rs =>
        match r? with
        | some r => .ok (r :: rs)
        | none => .ok rs

/-- One entry of the 7d diagnostic scan, lines 719-727.  For records passing
the filter, `v["timestamp"]["value"]` is subscripted (uncaught `KeyError` /
`TypeError` when malformed), the fractional suffix is stripped, and
`fromisoformat` parses it (uncaught `ValueError` on failure); non-string
timestamp values likewise raise uncaught.  The min/max bookkeeping of lines
724-727 only feeds `print` calls and is omitted. -/
def debugScanEntry (L : PyLib) (key : String) (v : JVal) : Except String Unit :=
  if isMeta key then .ok ()
  else
    match v with
    | .obj fields =>
      if hasKey fields "timestamp" then
        match pyIndexStr (jlookupD fields "timestamp" .null) "value" with
        | .error e => .error e
        | .ok (.str s) =>
          match L.fromiso (stripFrac s) with
          | some _ => .ok ()
          | none => .error "ValueError: bad isoformat string"
        | .ok _ => .error "TypeError: timestamp value is not a string"
      else .ok ()
    | _ => .ok ()

/-- The 7d diagnostic scan over the page (lines 715-734). -/
def debugScan (L : PyLib) : List (String × JVal) → Except String Unit
  | [] => .ok ()
  | (k, v) :: rest =>
    match debugScanEntry L k v with
    | .error e => .error e
    | .ok _ => debugScan L rest

/-- The outcome of the single upstream fetch (lines 708-710):
`requests.get` may raise (transport failure / timeout),
`r.raise_for_status()` raises on a non-2xx status, `r.json()` raises on an
unparseable payload, otherwise the decoded page is available. -/
inductive FetchResult where
  | transportError (msg : String)
  | httpError (msg : String)
  | badJson (msg : String)
  | ok (page : List (String × JVal))

/-- The upstream gateway: a response for a GET with given query parameters,
and — for reasoning about continuation chains — a response for each
continuation reference.  The source never dereferences a continuation, so
only `fetch` is ever consulted. -/
structure Upstream where
  fetch : List (String × String) → FetchResult
  next : String → FetchResult

/-- The lookback window per requested range (lines 672-689), in seconds;
unrecognized ranges fall back to the 1h window. -/
def lookbackSecs (tr : String) : ℚ :=
  if tr = "1h" then 3600
  else if tr = "4h" then 14400
  else if tr = "12h" then 43200
  else if tr = "24h" then 86400
  else if tr = "7d" then 604800
  else 3600

/-- `max_results` per requested range (lines 672-689). -/
def maxResults (tr : String) : ℕ :=
  if tr = "1h" then 20
  else if tr = "4h" then 60
  else if tr = "12h" then 150
  else if tr = "24h" then 300
  else if tr = "7d" then 50000
  else 20

/-- `start_time = now - <lookback>` (lines 672-689). -/
def startTime (tr : String) (now : ℚ) : ℚ := now - lookbackSecs tr

/-- The query parameters of the single GET (lines 693-706): the 7d range
sends no time filters, every other range bounds the window with
`published-ge` / `published-le` carrying a trailing `Z`. -/
def buildParams (L : PyLib) (tr : String) (now : ℚ) : List (String × String) :=
  if tr = "7d" then
    [("alt", "json"), ("max-results", toString (maxResults tr))]
  else
    [("published-ge", L.isoSec (startTime tr now) ++ "Z"),
     ("published-le", L.isoSec now ++ "Z"),
     ("alt", "json"),
     ("max-results", toString (maxResults tr))]

/-- The list of upstream fetches one call of `get_trend_data` performs.
Lines 708-710 issue exactly one `requests.get` with the initial parameters;
the source contains no loop over a continuation reference (the `next` key is
skipped at lines 720 and 739 and never dereferenced). -/
def trendFetchCalls (L : PyLib) (tr : String) (now : ℚ) (u : Upstream) : List FetchResult :=
  [u.fetch (buildParams L tr now)]

/-- The order used by `rows.sort(key=lambda x: x['sort_time'])` (line 798). -/
def rowLE (a b : Row) : Prop := a.sort_time ≤ b.sort_time

instance : DecidableRel rowLE :=
  fun a b => inferInstanceAs (Decidable (a.sort_time ≤ b.sort_time))

instance : IsTotal Row rowLE := ⟨fun a b => le_total a.sort_time b.sort_time⟩

instance : IsTrans Row rowLE := ⟨fun _ _ _ h h2 => le_trans h h2⟩

/-- The JSON body a trend request answers with: the success dict assembled at
lines 826-835 and the failure dict of lines 838-844 (whose `records`,
`total_records` and `actual_range` are the fixed `[]` / `0` / `"Error"`).
The `debug_info` list of log strings attached to both is pure diagnostics
and is not modelled. -/
inductive Response where
  | ok (records : List OutRow) (time_range : String) (actual_range : String)
      (start_time : String) (end_time : String) (total_records : ℕ)
  | err (error : String) (records : List OutRow) (total_records : ℕ) (actual_range : String)
deriving DecidableEq, Repr

/-- The non-raising tail of the route, lines 798-835: stable sort by
`sort_time`, gap interpolation only for `7d` with at least two rows
(lines 800-808), `del row['sort_time']` (lines 810-811), display decimation
only for `7d` (lines 813-816, inlined `downsample` with `maxPoints = 300`),
then the summary fields (lines 818-835). -/
def assembleResponse (L : PyLib) (tr : String) (now : ℚ) (rows0 : List Row) : Response :=
  let rows1 := List.insertionSort rowLE rows0
  let rows2 := if tr = "7d" ∧ 1 < rows1.length then interpolate_gaps L rows1 5 tr else rows1
  let out1 := rows2.map toOut
  let out2 := if tr = "7d" then downsample 300 out1 else out1
  let actualRange := if out2.isEmpty then "No data" else toString out2.length ++ " points"
  Response.ok out2 tr actualRange (L.iso (startTime tr now) ++ "Z") (L.iso now ++ "Z") out2.length

/-- The body of the `try` at lines 666-835: build the query, perform the
single fetch, run the 7d diagnostic scan, extract the rows, and assemble the
success response.  Any uncaught exception becomes an `Except.error`. -/
def trendBody (L : PyLib) (tr : String) (now : ℚ) (u : Upstream) : Except String Response :=
  match u.fetch (buildParams L tr now) with
  | .transportError e => .error e
  | .httpError e => .error e
  | .badJson e => .error e
  | .ok page =>
    match (if tr = "7d" then debugScan L page else .ok ()) with
    | .error e => .error e
    | .ok _ =>
      match extractRows L tr page with
      | .error e => .error e
      | .ok rows => .ok (assembleResponse L tr now rows)

/-- The `/api/trends` route `get_trend_data` (lines 664-844): the `except`
at lines 837-844 converts any escaped exception into the fixed error body
`{error, records: [], total_records: 0, actual_range: 'Error'}`. -/
def get_trend_data (L : PyLib) (tr : String) (now : ℚ) (u : Upstream) : Response :=
  match trendBody L tr now u with
  | .ok resp => resp
  | .error e => .err e [] 0 "Error"

/-- The records of a response body. -/
def respRecords : Response → List OutRow
  | .ok recs _ _ _ _ _ => recs
  | .err _ recs _ _ => recs

/-- A well-formed record in the sense of §4.3/§8 of the spec: a non-metadata
key mapping to a dict whose `timestamp` field is a dict with a string
`value` that the normalizer parses, and whose `logDatum` (defaulting to an
empty dict) is a dict from which the value selection of lines 746-760
produces a float-convertible value. -/
def wellFormedRec (L : PyLib) (e : String × JVal) : Bool :=
  !(isMeta e.1) &&
    match e.2 with
    | .obj fields =>
      (match jlookup fields "timestamp" with
       | some (.obj tf) =>
         (match jlookup tf "value" with
          | some (.str s) => (parseTs L s).isSome
          | _ => false)
       | _ => false)
      &&
      (match jlookupD fields "logDatum" (.obj []) with
       | .obj lf =>
         (match objSelectVal L lf with
          | some v => (pyFloat L v).isSome
          | none => false)
       | _ => false)
    | _ => false

/-- Malformed kind 1 of the claim: a record dict with no `timestamp` key
(skipped at line 739). -/
def missingTimestampRec (e : String × JVal) : Bool :=
  !(isMeta e.1) &&
    match e.2 with
    | .obj fields => !(hasKey fields "timestamp")
    | _ => false

/-- Malformed kinds 2 and 3 of the claim: a record with a timestamp whose
`logDatum` is a dict exposing no float-convertible value — which covers
status-only rows (e.g. a lone `log-status` marker) and any other record
with no numeric leaf.  Such records are skipped at lines 763-765, before the
timestamp is ever subscripted. -/
def noNumericLeafRec (L : PyLib) (e : String × JVal) : Bool :=
  !(isMeta e.1) &&
    match e.2 with
    | .obj fields =>
      hasKey fields "timestamp" &&
        (match jlookupD fields "logDatum" (.obj []) with
         | .obj lf => (objSelectVal L lf).isNone
         | _ => false)
    | _ => false

/-- The malformed-record kinds named by the claim. -/
def malformedRec (L : PyLib) (e : String × JVal) : Bool :=
  missingTimestampRec e || noNumericLeafRec L e

/-- A concrete instantiation of the foreign library functions, used to
evaluate the embedding on closed inputs: every string parses to instant 0,
no string is float-convertible, and all renderers yield `""`. -/
def lib0 : PyLib :=
  ⟨fun _ => some 0, fun _ => none, fun _ => "", fun _ => "", fun _ => "", fun _ => "", fun _ => ""⟩

/-- The §8 scenario input: samples at t = 0, 5, 65 minutes (0, 300, 3900
seconds) with values 70.0, 71.0, 80.0. -/
def rowsScenario : List Row :=
  [⟨"t0", 70, "", 0, false⟩, ⟨"t1", 71, "", 300, false⟩, ⟨"t2", 80, "", 3900, false⟩]

/-- A pair of adjacent samples one hour apart (a 12-step gap at the
5-minute interval). -/
def rowGapA : Row := ⟨"a", 70, "", 0, false⟩

/-- Second sample of the 12-step-gap pair. -/
def rowGapB : Row := ⟨"b", 80, "", 3600, false⟩

/-- A pair of adjacent samples 14700 seconds apart: a 49-step gap, one step
beyond the 48-step interpolation cap. -/
def rowCapA : Row := ⟨"a", 70, "", 0, false⟩

/-- Second sample of the 49-step-gap pair. -/
def rowCapB : Row := ⟨"b", 80, "", 14700, false⟩

/-- A well-formed upstream log record with the given value. -/
def mkRec (v : ℚ) : JVal :=
  .obj [("timestamp", .obj [("value", .str "2025-07-01T00:00:00")]),
        ("logDatum", .obj [("real-value", .obj [("value", .num v)])])]

/-- Page 1 of a three-page continuation chain: one record plus a
continuation reference. -/
def chainPage1 : List (String × JVal) := [("1", mkRec 70), ("next", .str "/page2")]

/-- Page 2 of the chain: one record plus a continuation reference. -/
def chainPage2 : List (String × JVal) := [("2", mkRec 71), ("next", .str "/page3")]

/-- Page 3 of the chain: one record, no continuation reference. -/
def chainPage3 : List (String × JVal) := [("3", mkRec 72)]

/-- An upstream holding the three-page chain: the initial query answers with
page 1, and each continuation reference resolves to the next page. -/
def chainUpstream : Upstream :=
  ⟨fun _ => .ok chainPage1,
   fun url =>
     if url = "/page2" then .ok chainPage2
     else if url = "/page3" then .ok chainPage3
     else .transportError "no such page"⟩

/-- An upstream identical to `chainUpstream` except that its continuation
pages hold different data. -/
def chainUpstreamAlt : Upstream :=
  ⟨fun _ => .ok chainPage1,
   fun _ => .ok [("9", mkRec 99)]⟩

/-- A real sample `i` steps of 300 seconds after time 0 (value 70). -/
def mkRow300 (i : ℕ) : Row := ⟨"", 70, "", 300 * i, false⟩

/-- 2016 real samples spaced exactly 5 minutes apart: a gap-free 7-day
window at the 5-minute interval. -/
def rows2016 : List Row := (List.range 2016).map mkRow300

/-- A synthetic page with 3 well-formed records and 4 malformed ones: the
malformed kinds are a record missing its timestamp, a status-only record,
and records whose `logDatum` has no numeric leaf.  Record `6` is well-formed
through the null fallthrough: its `real-value.value` is JSON null, so the
source falls back to the `*-value` scan and extracts the `signed-value`
leaf; record `7` has only the null `real-value` and is skipped. -/
def mixedPage : List (String × JVal) :=
  [("1", mkRec 70),
   ("2", .obj [("logDatum", .obj [("real-value", .obj [("value", .num 71)])])]),
   ("3", .obj [("timestamp", .obj [("value", .str "2025-07-01T00:05:00")]),
               ("logDatum", .obj [("log-status", .obj [("value", .str "log-interrupted")])])]),
   ("4", mkRec 72),
   ("5", .obj [("timestamp", .obj [("value", .str "2025-07-01T00:10:00")]),
               ("logDatum", .obj [])]),
   ("6", .obj [("timestamp", .obj [("value", .str "2025-07-01T00:15:00")]),
               ("logDatum", .obj [("real-value", .obj [("value", .null)]),
                                  ("signed-value", .obj [("value", .num 5)])])]),
   ("7", .obj [("timestamp", .obj [("value", .str "2025-07-01T00:20:00")]),
               ("logDatum", .obj [("real-value", .obj [("value", .null)])])])]

/-- An upstream whose single fetch fails at the transport layer. -/
def failUpstream : Upstream :=
  ⟨fun _ => .transportError "connection refused", fun _ => .transportError "connection refused"⟩

/-- An upstream answering the initial query with a one-record page. -/
def okUpstream : Upstream :=
  ⟨fun _ => .ok [("1", mkRec 70)], fun _ => .transportError "no such page"⟩

/-- A short sample sequence for the downsampler witness. -/
def shortOutRows : List OutRow := [⟨"a", 70, "", false⟩, ⟨"b", 71, "", false⟩]

/-- A sample exactly `2 * expected_interval` (600 s) after `rowGapA`. -/
def row600 : Row := ⟨"b", 80, "", 600, false⟩

/-- A sample `2 * expected_interval + 1` (601 s) after `rowGapA`. -/
def row601 : Row := ⟨"b", 80, "", 601, false⟩

/-- The row extracted from `mkRec 70` under `lib0`. -/
def extractedRow0 : Row := ⟨"2025-07-01T00:00:00", 70, "", 0, false⟩

/-- `pyInt` agrees with the floor on nonnegative arguments (the only way the
source applies it: the gap is positive inside the interpolation branch). -/
theorem pyInt_eq_floor {q : ℚ} (h : 0 ≤ q) : pyInt q = ⌊q⌋ := by
  rw [pyInt, Rat.floor_def]
  exact Int.tdiv_eq_ediv (Rat.num_nonneg.mpr h) (Int.natCast_nonneg _)

/-- Inside the interpolation branch the step count is at least 2. -/
theorem two_le_pyInt_gap {eim gap : ℚ} (hei : 0 < eim) (h : eim * 60 * 2 < gap) :
    2 ≤ pyInt (gap / (eim * 60)) := by
  have hpos : (0 : ℚ) < eim * 60 := by positivity
  have h2 : (2 : ℚ) < gap / (eim * 60) := by
    rw [lt_div_iff₀ hpos]; linarith
  rw [pyInt_eq_floor (by linarith)]
  exact Int.le_floor.mpr (by exact_mod_cast h2.le)

/-- Every interpolated sample for a pair lies between the two bounding real
samples (in `sort_time`). -/
theorem fillBetween_mem_bounds (L : PyLib) (tr : String) {eim : ℚ} (hei : 0 < eim)
    {a b x : Row} (hx : x ∈ fillBetween L tr eim a b) :
    a.sort_time ≤ x.sort_time ∧ x.sort_time ≤ b.sort_time := by
  have hpos : (0 : ℚ) < eim * 60 := by positivity
  simp only [fillBetween] at hx
  split at hx
  case isFalse => simp at hx
  case isTrue hgap =>
    split at hx
    case isFalse => simp at hx
    case isTrue hcap =>
      simp only [List.mem_map] at hx
      obtain ⟨j, hj, rfl⟩ := hx
      rw [List.mem_range'] at hj
      obtain ⟨i, hi, rfl⟩ := hj
      dsimp only
      have hgap0 : (0 : ℚ) < b.sort_time - a.sort_time := by linarith
      have hq0 : (0 : ℚ) ≤ (b.sort_time - a.sort_time) / (eim * 60) := by positivity
      have hfl := pyInt_eq_floor hq0
      have h2n : 2 ≤ pyInt ((b.sort_time - a.sort_time) / (eim * 60)) :=
        two_le_pyInt_gap hei hgap
      have hnle : ((pyInt ((b.sort_time - a.sort_time) / (eim * 60)) : ℤ) : ℚ)
          ≤ (b.sort_time - a.sort_time) / (eim * 60) := by
        rw [hfl]; exact Int.floor_le _
      have hml : ((pyInt ((b.sort_time - a.sort_time) / (eim * 60)) : ℤ) : ℚ) * (eim * 60)
          ≤ b.sort_time - a.sort_time := (le_div_iff₀ hpos).mp hnle
      have hjq1 : (1 : ℚ) ≤ ((1 + 1 * i : ℕ) : ℚ) := by
        have h1i : (1 : ℕ) ≤ 1 + 1 * i := by omega
        exact_mod_cast h1i
      have hjn : ((1 + 1 * i : ℕ) : ℚ) ≤
          ((pyInt ((b.sort_time - a.sort_time) / (eim * 60)) : ℤ) : ℚ) - 1 := by
        have hj3 : (1 + 1 * i) + 1 ≤
            (pyInt ((b.sort_time - a.sort_time) / (eim * 60))).toNat := by omega
        have hc : (((1 + 1 * i : ℕ) : ℤ) : ℚ) + 1 ≤
            (((pyInt ((b.sort_time - a.sort_time) / (eim * 60))).toNat : ℤ) : ℚ) := by
          exact_mod_cast hj3
        rwa [Int.toNat_of_nonneg (by omega), ← le_sub_iff_add_le] at hc
      constructor
      · nlinarith [mul_le_mul_of_nonneg_left hjq1 (le_of_lt hpos)]
      · have hm : (eim * 60) * ((1 + 1 * i : ℕ) : ℚ) ≤
            (eim * 60) * (((pyInt ((b.sort_time - a.sort_time) / (eim * 60)) : ℤ) : ℚ) - 1) :=
          mul_le_mul_of_nonneg_left hjn (le_of_lt hpos)
        nlinarith

/-- The interpolated samples for one pair are sorted by `sort_time`. -/
theorem fillBetween_pairwise (L : PyLib) (tr : String) {eim : ℚ} (hei : 0 < eim)
    (a b : Row) : List.Pairwise rowLE (fillBetween L tr eim a b) := by
  have hpos : (0 : ℚ) < eim * 60 := by positivity
  simp only [fillBetween]
  split
  case isFalse => exact List.Pairwise.nil
  case isTrue hgap =>
    split
    case isFalse => exact List.Pairwise.nil
    case isTrue hcap =>
      rw [List.pairwise_map]
      refine (List.pairwise_lt_range' 1 _).imp ?_
      intro i j hij
      show rowLE _ _
      dsimp only [rowLE]
      have hij' : (i : ℚ) ≤ (j : ℚ) := by exact_mod_cast le_of_lt hij
      nlinarith [mul_le_mul_of_nonneg_left hij' (le_of_lt hpos)]

/-- A pair not exceeding twice the expected interval is not filled. -/
theorem fillBetween_eq_nil (L : PyLib) (tr : String) (eim : ℚ) {a b : Row}
    (h : ¬ (eim * 60 * 2 < b.sort_time - a.sort_time)) :
    fillBetween L tr eim a b = [] := by
  simp only [fillBetween, if_neg h]

/-- The traversal keeps the input rows as a sublist: no real sample is
deleted, reordered, or modified. -/
theorem interpGapsGo_sublist (L : PyLib) (tr : String) (eim : ℚ) :
    ∀ rows : List Row, List.Sublist rows (interpGapsGo L tr eim rows)
  | [] => by simp [interpGapsGo]
  | [r] => by simp [interpGapsGo]
  | r :: r2 :: rest => by
    have IH := interpGapsGo_sublist L tr eim (r2 :: rest)
    simp only [interpGapsGo]
    exact List.Sublist.cons₂ r (IH.trans (List.sublist_append_right _ _))

/-- The traversal preserves sortedness, and every output row is bounded
below by the head of the input. -/
theorem interpGapsGo_sorted (L : PyLib) (tr : String) {eim : ℚ} (hei : 0 < eim) :
    ∀ rows : List Row, List.Sorted rowLE rows →
      List.Sorted rowLE (interpGapsGo L tr eim rows) ∧
      ∀ x ∈ interpGapsGo L tr eim rows, ∀ hd ∈ rows.head?, hd.sort_time ≤ x.sort_time
  | [], _ => by simp [interpGapsGo]
  | [r], _ => by
    refine ⟨by simp [interpGapsGo], ?_⟩
    intro x hx hd hhd
    simp only [interpGapsGo, List.mem_singleton] at hx
    simp only [List.head?_cons, Option.mem_def, Option.some.injEq] at hhd
    subst hhd
    subst hx
    exact le_refl _
  | r :: r2 :: rest, hs => by
    have hs' : List.Sorted rowLE (r2 :: rest) := hs.of_cons
    have hr12 : rowLE r r2 := (List.sorted_cons.mp hs).1 r2 (by simp)
    obtain ⟨ihS, ihB⟩ := interpGapsGo_sorted L tr hei (r2 :: rest) hs'
    have hfill : ∀ x ∈ fillBetween L tr eim r r2,
        r.sort_time ≤ x.sort_time ∧ x.sort_time ≤ r2.sort_time := by
      intro x hx
      exact fillBetween_mem_bounds L tr hei hx
    have htail : ∀ y ∈ interpGapsGo L tr eim (r2 :: rest), r2.sort_time ≤ y.sort_time := by
      intro y hy
      exact ihB y hy r2 (by simp)
    constructor
    · simp only [interpGapsGo]
      rw [List.sorted_cons]
      refine ⟨?_, ?_⟩
      · intro y hy
        rcases List.mem_append.mp hy with hyf | hyt
        · exact (hfill y hyf).1
        · exact le_trans hr12 (htail y hyt)
      · rw [List.Sorted, List.pairwise_append]
        refine ⟨fillBetween_pairwise L tr hei r r2, ihS, ?_⟩
        intro x hxf y hyt
        exact le_trans (hfill x hxf).2 (htail y hyt)
    · simp only [interpGapsGo]
      intro x hx hd hhd
      simp only [List.head?_cons, Option.mem_def, Option.some.injEq] at hhd
      subst hhd
      rcases List.mem_cons.mp hx with rfl | hx'
      · exact le_refl _
      · rcases List.mem_append.mp hx' with hxf | hxt
        · exact (hfill x hxf).1
        · exact le_trans hr12 (htail x hxt)

/-- When no adjacent pair exceeds twice the expected interval, the traversal
is the identity. -/
theorem interpGapsGo_no_fill (L : PyLib) (tr : String) {eim : ℚ} :
    ∀ rows : List Row,
      List.Chain' (fun a b : Row => ¬ (eim * 60 * 2 < b.sort_time - a.sort_time)) rows →
      interpGapsGo L tr eim rows = rows
  | [], _ => rfl
  | [_], _ => rfl
  | r :: r2 :: rest, hc => by
    obtain ⟨h1, hc'⟩ := List.chain'_cons.mp hc
    simp only [interpGapsGo, fillBetween_eq_nil L tr eim h1, List.nil_append,
      interpGapsGo_no_fill L tr (r2 :: rest) hc']

/-- When no adjacent pair exceeds twice the expected interval,
`interpolate_gaps` returns its input unchanged. -/
theorem interpolate_gaps_no_fill (L : PyLib) (tr : String) {eim : ℚ} (rows : List Row)
    (hc : List.Chain' (fun a b : Row => ¬ (eim * 60 * 2 < b.sort_time - a.sort_time)) rows) :
    interpolate_gaps L rows eim tr = rows := by
  rw [interpolate_gaps]
  split
  · rfl
  · exact interpGapsGo_no_fill L tr rows hc

/-- The output of the traversal interleaves the fill of each adjacent pair
between the pair's two rows. -/
theorem interpGapsGo_eq_zip (L : PyLib) (tr : String) (eim : ℚ) :
    ∀ (r : Row) (rest : List Row),
      interpGapsGo L tr eim (r :: rest) =
        r :: (List.zip (r :: rest) rest).flatMap
          (fun p => fillBetween L tr eim p.1 p.2 ++ [p.2])
  | _, [] => by simp [interpGapsGo]
  | r, r2 :: rest => by
    have IH := interpGapsGo_eq_zip L tr eim r2 rest
    simp only [interpGapsGo, IH, List.zip_cons_cons, List.flatMap_cons, List.cons_append,
      List.append_assoc, List.singleton_append, List.nil_append]

/-- Inside the interpolation branch the fill is a map over
`range(1, num_intervals)`. -/
theorem fillBetween_get (L : PyLib) (tr : String) (eim : ℚ) (a b : Row)
    (hgap : eim * 60 * 2 < b.sort_time - a.sort_time)
    (hcap : pyInt ((b.sort_time - a.sort_time) / (eim * 60)) ≤ 48) :
    fillBetween L tr eim a b =
      (List.range' 1 ((pyInt ((b.sort_time - a.sort_time) / (eim * 60))).toNat - 1)).map
        (fun (j : ℕ) =>
          ⟨L.iso (a.sort_time + eim * 60 * (j : ℚ)),
           round2 (a.temperature + (b.temperature - a.temperature) *
             ((j : ℚ) / ((pyInt ((b.sort_time - a.sort_time) / (eim * 60)) : ℤ) : ℚ))),
           fmtFor L tr (a.sort_time + eim * 60 * (j : ℚ)),
           a.sort_time + eim * 60 * (j : ℚ), true⟩) := by
  simp only [fillBetween]
  rw [if_pos hgap, if_pos hcap]

/-- C5: for every sample sequence already sorted by timestamp, the output of
`interpolate_gaps` is still sorted by timestamp, and every input sample is
present unmodified and in order in the output (the input is a sublist of the
output): interpolation never deletes, reorders, or mutates real samples. -/
theorem gap_fill_preserves_sorted_and_samples (L : PyLib) (tr : String) {eim : ℚ}
    (hei : 0 < eim) (rows : List Row) (hs : List.Sorted rowLE rows) :
    List.Sorted rowLE (interpolate_gaps L rows eim tr) ∧
    List.Sublist rows (interpolate_gaps L rows eim tr) := by
  rw [interpolate_gaps]
  split
  · exact ⟨hs, List.Sublist.refl rows⟩
  · exact ⟨(interpGapsGo_sorted L tr hei rows hs).1, interpGapsGo_sublist L tr eim rows⟩

/-- Witness for C5 at the concrete scenario input. -/
theorem gap_fill_preserves_sorted_and_samples_witness :
    ((0 : ℚ) < 5 ∧ List.Sorted rowLE rowsScenario) ∧
    (List.Sorted rowLE (interpolate_gaps lib0 rowsScenario 5 "7d") ∧
     List.Sublist rowsScenario (interpolate_gaps lib0 rowsScenario 5 "7d")) :=
  ⟨⟨by norm_num, by decide⟩,
   gap_fill_preserves_sorted_and_samples lib0 "7d" (by norm_num) rowsScenario (by decide)⟩

/-- C6 (amended): the interpolation threshold is strict — a gap exactly
equal to `2 * expected_interval` triggers no interpolation, and a gap
strictly greater does trigger interpolation provided its step count is
within the 48-step cap. -/
theorem gap_fill_threshold_strict (L : PyLib) (tr : String) {eim : ℚ} (hei : 0 < eim)
    (a b : Row) :
    (b.sort_time - a.sort_time = eim * 60 * 2 → fillBetween L tr eim a b = []) ∧
    (eim * 60 * 2 < b.sort_time - a.sort_time →
      pyInt ((b.sort_time - a.sort_time) / (eim * 60)) ≤ 48 →
      fillBetween L tr eim a b ≠ []) := by
  constructor
  · intro heq
    exact fillBetween_eq_nil L tr eim (by rw [heq]; exact lt_irrefl _)
  · intro hgap hcap
    have h2n := two_le_pyInt_gap hei hgap
    rw [fillBetween_get L tr eim a b hgap hcap]
    intro hnil
    have hlen := congrArg List.length hnil
    simp only [List.length_map, List.length_range', List.length_nil] at hlen
    omega

/-- C6 counterexample: a 49-step gap (14700 s at the 5-minute interval) is
strictly greater than `2 * expected_interval` yet triggers no interpolation,
because its step count exceeds the 48-step cap. -/
theorem gap_beyond_cap_counterexample :
    (5 : ℚ) * 60 * 2 < rowCapB.sort_time - rowCapA.sort_time ∧
    fillBetween lib0 "7d" 5 rowCapA rowCapB = [] := by
  constructor
  · norm_num [rowCapA, rowCapB]
  · with_unfolding_all decide

/-- Witness for C6 at the boundary inputs: a gap of exactly 600 s is not
filled, a gap of 601 s is. -/
theorem gap_fill_threshold_strict_witness :
    ((0 : ℚ) < 5 ∧ row600.sort_time - rowGapA.sort_time = 5 * 60 * 2 ∧
      (5 : ℚ) * 60 * 2 < row601.sort_time - rowGapA.sort_time ∧
      pyInt ((row601.sort_time - rowGapA.sort_time) / (5 * 60)) ≤ 48) ∧
    fillBetween lib0 "7d" 5 rowGapA row600 = [] ∧
    fillBetween lib0 "7d" 5 rowGapA row601 ≠ [] :=
  ⟨⟨by norm_num, by with_unfolding_all decide, by with_unfolding_all decide,
    by with_unfolding_all decide⟩,
   (gap_fill_threshold_strict lib0 "7d" (by norm_num) rowGapA row600).1
     (by with_unfolding_all decide),
   (gap_fill_threshold_strict lib0 "7d" (by norm_num) rowGapA row601).2
     (by with_unfolding_all decide) (by with_unfolding_all decide)⟩

/-- C3: on the scenario input (samples at 0, 300, 3900 seconds with values
70, 71, 80, expected interval 5 minutes) the gap filler emits exactly 11
interpolated points at 600, 900, ..., 3600 seconds — evenly spaced 5 minutes
apart between t=5min and t=65min — with linearly interpolated values, the
one at t=35min (2100 s) being 75.5. -/
theorem gap_fill_scenario_three_samples :
    (interpolate_gaps lib0 rowsScenario 5 "7d").map
        (fun r => (r.sort_time, r.temperature, r.interpolated)) =
      [(0, 70, false), (300, 71, false), (600, 71.75, true), (900, 72.5, true),
       (1200, 73.25, true), (1500, 74, true), (1800, 74.75, true), (2100, 75.5, true),
       (2400, 76.25, true), (2700, 77, true), (3000, 77.75, true), (3300, 78.5, true),
       (3600, 79.25, true), (3900, 80, false)] := by
  have e1 : fillBetween lib0 "7d" 5 ⟨"t0", 70, "", 0, false⟩ ⟨"t1", 71, "", 300, false⟩ = [] :=
    fillBetween_eq_nil lib0 "7d" 5 (by norm_num)
  have e2 : fillBetween lib0 "7d" 5 ⟨"t1", 71, "", 300, false⟩ ⟨"t2", 80, "", 3900, false⟩ =
      [⟨"", 71.75, "", 600, true⟩, ⟨"", 72.5, "", 900, true⟩, ⟨"", 73.25, "", 1200, true⟩,
       ⟨"", 74, "", 1500, true⟩, ⟨"", 74.75, "", 1800, true⟩, ⟨"", 75.5, "", 2100, true⟩,
       ⟨"", 76.25, "", 2400, true⟩, ⟨"", 77, "", 2700, true⟩, ⟨"", 77.75, "", 3000, true⟩,
       ⟨"", 78.5, "", 3300, true⟩, ⟨"", 79.25, "", 3600, true⟩] := by
    rw [fillBetween_get lib0 "7d" 5 _ _ (by norm_num) (by norm_num [pyInt])]
    dsimp only
    rw [show ((3900 : ℚ) - 300) / (5 * 60) = 12 by norm_num]
    rw [show pyInt 12 = 12 by with_unfolding_all decide]
    rw [show ((12 : ℤ).toNat - 1) = 11 by decide]
    rw [show List.range' 1 11 = [1, 2, 3, 4, 5, 6, 7, 8, 9, 10, 11] by decide]
    simp only [List.map_cons, List.map_nil]
    norm_num [lib0, fmtFor, round2, pyRoundHalfEven]
  have E : interpolate_gaps lib0 rowsScenario 5 "7d" =
      [⟨"t0", 70, "", 0, false⟩, ⟨"t1", 71, "", 300, false⟩,
       ⟨"", 71.75, "", 600, true⟩, ⟨"", 72.5, "", 900, true⟩, ⟨"", 73.25, "", 1200, true⟩,
       ⟨"", 74, "", 1500, true⟩, ⟨"", 74.75, "", 1800, true⟩, ⟨"", 75.5, "", 2100, true⟩,
       ⟨"", 76.25, "", 2400, true⟩, ⟨"", 77, "", 2700, true⟩, ⟨"", 77.75, "", 3000, true⟩,
       ⟨"", 78.5, "", 3300, true⟩, ⟨"", 79.25, "", 3600, true⟩, ⟨"t2", 80, "", 3900, false⟩] := by
    rw [interpolate_gaps, if_neg (by simp [rowsScenario])]
    simp only [rowsScenario, interpGapsGo]
    rw [e1, e2]
    simp
  rw [E]
  rfl

/-- C2 (amended): for every adjacent pair whose gap strictly exceeds twice
the expected interval, with step count `n = int(gap / interval)` within the
48-step cap (inclusive), the gap filler synthesizes `n - 1` intermediate
samples — one per interior step boundary — at evenly spaced timestamps
`cur + interval * (j+1)` with linearly interpolated (2-decimal-rounded)
values, each flagged as interpolated; gaps whose step count exceeds the cap
are left entirely unfilled.  The first conjunct ties the per-pair fill to
`interpolate_gaps` on a whole sequence. -/
theorem gap_fill_emits_step_count_minus_one (L : PyLib) (tr : String) (eim : ℚ) :
    (∀ (r : Row) (rest : List Row),
      interpolate_gaps L (r :: rest) eim tr =
        r :: (List.zip (r :: rest) rest).flatMap
          (fun p => fillBetween L tr eim p.1 p.2 ++ [p.2])) ∧
    (∀ a b : Row,
      eim * 60 * 2 < b.sort_time - a.sort_time →
      ((pyInt ((b.sort_time - a.sort_time) / (eim * 60)) ≤ 48 →
        (fillBetween L tr eim a b).length =
          (pyInt ((b.sort_time - a.sort_time) / (eim * 60))).toNat - 1 ∧
        ∀ (j : ℕ) (hj : j < (fillBetween L tr eim a b).length),
          ((fillBetween L tr eim a b).get ⟨j, hj⟩).sort_time =
            a.sort_time + eim * 60 * ((j : ℚ) + 1) ∧
          ((fillBetween L tr eim a b).get ⟨j, hj⟩).temperature =
            round2 (a.temperature + (b.temperature - a.temperature) *
              (((j : ℚ) + 1) / ((pyInt ((b.sort_time - a.sort_time) / (eim * 60)) : ℤ) : ℚ))) ∧
          ((fillBetween L tr eim a b).get ⟨j, hj⟩).interpolated = true) ∧
      (48 < pyInt ((b.sort_time - a.sort_time) / (eim * 60)) →
        fillBetween L tr eim a b = []))) := by
  constructor
  · intro r rest
    rw [interpolate_gaps]
    split
    case isTrue hlt =>
      cases rest with
      | nil => simp
      | cons r2 rest' =>
        simp only [List.length_cons] at hlt
        omega
    case isFalse hge =>
      exact interpGapsGo_eq_zip L tr eim r rest
  · intro a b hgap
    constructor
    · intro hcap
      rw [fillBetween_get L tr eim a b hgap hcap]
      refine ⟨by simp, ?_⟩
      intro j hj
      rw [List.get_eq_getElem, List.getElem_map, List.getElem_range']
      refine ⟨?_, ?_, rfl⟩
      · dsimp only
        push_cast
        ring
      · dsimp only
        congr 1
        push_cast
        ring
    · intro hcap'
      simp only [fillBetween]
      rw [if_pos hgap,
        if_neg (by omega : ¬ pyInt ((b.sort_time - a.sort_time) / (eim * 60)) ≤ 48)]

/-- C2 counterexample: on a 12-step gap (3600 s at the 5-minute interval,
within the cap) the filler synthesizes 11 samples, not the step count 12
that the claim states. -/
theorem gap_fill_count_counterexample :
    pyInt ((rowGapB.sort_time - rowGapA.sort_time) / (5 * 60)) = 12 ∧
    (5 : ℚ) * 60 * 2 < rowGapB.sort_time - rowGapA.sort_time ∧
    (fillBetween lib0 "7d" 5 rowGapA rowGapB).length = 11 ∧
    ¬ ((fillBetween lib0 "7d" 5 rowGapA rowGapB).length = 12) := by
  have hn : pyInt ((rowGapB.sort_time - rowGapA.sort_time) / (5 * 60)) = 12 := by
    norm_num [rowGapA, rowGapB, pyInt]
  have hlen : (fillBetween lib0 "7d" 5 rowGapA rowGapB).length = 11 := by
    rw [fillBetween_get lib0 "7d" 5 _ _ (by norm_num [rowGapA, rowGapB]) (by rw [hn]; norm_num)]
    rw [List.length_map, List.length_range', hn]
    decide
  exact ⟨hn, by norm_num [rowGapA, rowGapB], hlen, by rw [hlen]; decide⟩

/-- Witness for C2 at the 12-step-gap pair. -/
theorem gap_fill_emits_step_count_minus_one_witness :
    (5 : ℚ) * 60 * 2 < rowGapB.sort_time - rowGapA.sort_time ∧
    pyInt ((rowGapB.sort_time - rowGapA.sort_time) / (5 * 60)) ≤ 48 ∧
    interpolate_gaps lib0 [rowGapA, rowGapB] 5 "7d" =
      rowGapA :: (fillBetween lib0 "7d" 5 rowGapA rowGapB ++ [rowGapB]) := by
  have hz := (gap_fill_emits_step_count_minus_one lib0 "7d" 5).1 rowGapA [rowGapB]
  refine ⟨by norm_num [rowGapA, rowGapB], by norm_num [rowGapA, rowGapB, pyInt], ?_⟩
  rw [hz]
  simp

/-- C9: the downsampler is idempotent in the stated sense — once its output
length is at most `max_points`, applying it again with the same `max_points`
is a no-op (the length guard short-circuits). -/
theorem downsample_idempotent_once_small (maxPoints : ℕ) (l : List OutRow)
    (h : (downsample maxPoints l).length ≤ maxPoints) :
    downsample maxPoints (downsample maxPoints l) = downsample maxPoints l := by
  set d := downsample maxPoints l with hd
  rw [downsample, if_neg (not_lt.mpr h)]

/-- Witness for C9 on a two-sample sequence with `max_points = 300`. -/
theorem downsample_idempotent_once_small_witness :
    (downsample 300 shortOutRows).length ≤ 300 ∧
    downsample 300 (downsample 300 shortOutRows) = downsample 300 shortOutRows :=
  ⟨by decide, downsample_idempotent_once_small 300 shortOutRows (by decide)⟩

/-- `l[::step]` keeps `ceil(len / step)` elements. -/
theorem pySliceStep_length {α : Type} (step : ℕ) (hs : 0 < step) :
    ∀ l : List α, (pySliceStep step l).length = (l.length + step - 1) / step := by
  intro l
  induction l using pySliceStep.induct step with
  | case1 =>
    simp only [pySliceStep, List.length_nil, Nat.zero_add]
    exact (Nat.div_eq_of_lt (by omega)).symm
  | case2 a rest ih =>
    simp only [pySliceStep, List.length_cons]
    rw [ih, List.length_drop]
    rcases Nat.lt_or_ge rest.length (step - 1) with hlt | hge
    · have e1 : rest.length - (step - 1) + step - 1 = step - 1 := by omega
      have e2 : rest.length + 1 + step - 1 = rest.length + step := by omega
      rw [e1, e2, Nat.div_eq_of_lt (by omega),
        show (rest.length + step) / step = 1 from
          Nat.div_eq_of_lt_le (by omega) (by omega)]
    · have e1 : rest.length - (step - 1) + step - 1 = rest.length := by omega
      have e2 : rest.length + 1 + step - 1 = rest.length + step := by omega
      rw [e1, e2, Nat.add_div_right _ hs]

/-- The gap-free 7-day input has 2016 rows. -/
theorem rows2016_length : rows2016.length = 2016 := by
  simp [rows2016]

/-- The gap-free 7-day input is sorted. -/
theorem rows2016_sorted : List.Sorted rowLE rows2016 := by
  rw [rows2016, List.Sorted, List.pairwise_map, List.range_eq_range']
  refine (List.pairwise_lt_range' 0 2016).imp ?_
  intro i j hij
  show rowLE _ _
  dsimp only [mkRow300, rowLE]
  have hc : (i : ℚ) ≤ (j : ℚ) := by exact_mod_cast hij.le
  linarith

/-- No adjacent pair of the gap-free 7-day input exceeds twice the
expected interval. -/
theorem rows2016_chain :
    List.Chain' (fun a b : Row => ¬ ((5 : ℚ) * 60 * 2 < b.sort_time - a.sort_time))
      rows2016 := by
  rw [rows2016, List.chain'_map, show (2016 : ℕ) = 2015 + 1 by norm_num]
  refine (List.chain'_range_succ _ 2015).mpr ?_
  intro m _
  dsimp only [mkRow300]
  intro hcontra
  have he : (300 : ℚ) * ((m : ℚ) + 1) - 300 * (m : ℚ) = 300 := by ring
  push_cast at hcontra
  rw [he] at hcontra
  norm_num at hcontra

/-- The records of the 7-day response on the gap-free 2016-row input are the
stride-6 decimation of the input. -/
theorem assemble2016_records :
    respRecords (assembleResponse lib0 "7d" 0 rows2016) =
      pySliceStep 6 (rows2016.map toOut) := by
  have hl2 : (rows2016.map toOut).length = 2016 := by
    rw [List.length_map, rows2016_length]
  have hcond1 : True ∧ 1 < rows2016.length := ⟨trivial, by rw [rows2016_length]; norm_num⟩
  have hcond2 : 300 < (List.map toOut rows2016).length := by rw [hl2]; norm_num
  simp only [assembleResponse]
  rw [rows2016_sorted.insertionSort_eq, if_pos hcond1,
    interpolate_gaps_no_fill lib0 "7d" rows2016 rows2016_chain,
    downsample, if_pos hcond2, hl2, show (2016 : ℕ) / 300 = 6 by norm_num]
  rfl

/-- The record count of the 7-day response on the gap-free 2016-row input. -/
theorem assemble2016_len :
    (respRecords (assembleResponse lib0 "7d" 0 rows2016)).length = 336 := by
  rw [assemble2016_records, pySliceStep_length 6 (by norm_num), List.length_map,
    rows2016_length]

/-- C4 (amended): requesting range 7d with 2016 gap-free real samples spaced
5 minutes apart produces exactly 336 output samples — the downsampler uses
integer stride `2016 // 300 = 6` and keeps every 6th sample from index 0,
which retains `ceil(2016 / 6) = 336` samples, not 300. -/
theorem seven_day_2016_downsample_336 :
    respRecords (assembleResponse lib0 "7d" 0 rows2016) =
      pySliceStep 6 (rows2016.map toOut) ∧
    (respRecords (assembleResponse lib0 "7d" 0 rows2016)).length = 336 :=
  ⟨assemble2016_records, assemble2016_len⟩

/-- C4 counterexample: the 7d request over 2016 gap-free samples does not
return 300 records. -/
theorem seven_day_2016_downsample_not_300 :
    ¬ ((respRecords (assembleResponse lib0 "7d" 0 rows2016)).length = 300) := by
  rw [assemble2016_len]
  decide

/-- A row built inside the `try` of lines 768-791 never carries the
`interpolated` flag. -/
theorem tryParseRow_interpolated (L : PyLib) (tr : String) {val tsVal : JVal} {r : Row}
    (h : tryParseRow L tr val tsVal = some r) : r.interpolated = false := by
  rw [tryParseRow.eq_def] at h
  split at h
  case _ s =>
    split at h
    case _ dt =>
      split at h
      case _ temp =>
        simp only [Option.some.injEq] at h
        subst h
        rfl
      case _ => exact absurd h (by simp)
    case _ => exact absurd h (by simp)
  case _ x => exact absurd h (by simp)

/-- A row produced by the extraction loop never carries the `interpolated`
flag. -/
theorem extractRecord_interpolated_false (L : PyLib) (tr : String) {k : String} {v : JVal}
    {r : Row} (h : extractRecord L tr k v = Except.ok (some r)) : r.interpolated = false := by
  rw [extractRecord.eq_def] at h
  split at h
  case isTrue => exact absurd h (by simp)
  case isFalse =>
    split at h
    case _ fields =>
      split at h
      case isTrue => exact absurd h (by simp)
      case isFalse =>
        split at h
        case _ e => exact absurd h (by simp)
        case _ => exact absurd h (by simp)
        case _ val =>
          split at h
          case _ e => exact absurd h (by simp)
          case _ tsVal =>
            simp only [Except.ok.injEq] at h
            exact tryParseRow_interpolated L tr h
    case _ x => exact absurd h (by simp)

/-- Every row of a successful extraction has `interpolated = false`. -/
theorem extractRows_interpolated_false (L : PyLib) (tr : String) :
    ∀ (page : List (String × JVal)) (rows : List Row),
      extractRows L tr page = Except.ok rows → ∀ r ∈ rows, r.interpolated = false
  | [], rows, h => by
    simp only [extractRows, Except.ok.injEq] at h
    subst h
    simp
  | (k, v) :: rest, rows, h => by
    rw [extractRows] at h
    rcases hrec : extractRecord L tr k v with e | r?
    · rw [hrec] at h; simp at h
    · rw [hrec] at h
      rcases hrest : extractRows L tr rest with e2 | rs
      · rw [hrest] at h; simp at h
      · rw [hrest] at h
        have ihr := extractRows_interpolated_false L tr rest rs hrest
        rcases r? with _ | r0
        · simp only [Except.ok.injEq] at h
          subst h
          exact ihr
        · simp only [Except.ok.injEq] at h
          subst h
          intro r hr
          rcases List.mem_cons.mp hr with rfl | hr'
          · exact extractRecord_interpolated_false L tr hrec
          · exact ihr r hr'

/-- A well-formed record is extracted as one sample. -/
theorem extractRecord_of_wellFormed (L : PyLib) (tr : String) {k : String} {v : JVal}
    (h : wellFormedRec L (k, v) = true) :
    ∃ r, extractRecord L tr k v = Except.ok (some r) := by
  rcases v with _ | b | q | s0 | xs | fields
  case null => simp [wellFormedRec] at h
  case bool => simp [wellFormedRec] at h
  case num => simp [wellFormedRec] at h
  case str => simp [wellFormedRec] at h
  case arr => simp [wellFormedRec] at h
  case obj =>
  simp only [wellFormedRec, Bool.and_eq_true, Bool.not_eq_true'] at h
  obtain ⟨hm, hts, hld⟩ := h
  rcases hjt : jlookup fields "timestamp" with _ | tv
  case none => rw [hjt] at hts; simp at hts
  case some =>
  rcases tv with _ | b2 | q2 | s2 | xs2 | tf
  case null => rw [hjt] at hts; simp at hts
  case bool => rw [hjt] at hts; simp at hts
  case num => rw [hjt] at hts; simp at hts
  case str => rw [hjt] at hts; simp at hts
  case arr => rw [hjt] at hts; simp at hts
  case obj =>
  rw [hjt] at hts
  simp only [] at hts
  rcases hjv : jlookup tf "value" with _ | vv
  case none => simp [hjv] at hts
  case some =>
  rcases vv with _ | b3 | q3 | s3 | xs3 | tf3
  case null => simp [hjv] at hts
  case bool => simp [hjv] at hts
  case num => simp [hjv] at hts
  case arr => simp [hjv] at hts
  case obj => simp [hjv] at hts
  case str =>
  simp only [hjv] at hts
  rcases hldq : jlookupD fields "logDatum" (.obj []) with _ | b4 | q4 | s4 | xs4 | lf
  case null => rw [hldq] at hld; simp at hld
  case bool => rw [hldq] at hld; simp at hld
  case num => rw [hldq] at hld; simp at hld
  case str => rw [hldq] at hld; simp at hld
  case arr => rw [hldq] at hld; simp at hld
  case obj =>
  rw [hldq] at hld
  simp only [] at hld
  rcases hsv : objSelectVal L lf with _ | v0
  case none => simp [hsv] at hld
  case some =>
  simp only [hsv] at hld
  obtain ⟨dt, hdt⟩ := Option.isSome_iff_exists.mp (by simpa using hts)
  obtain ⟨temp, htemp⟩ := Option.isSome_iff_exists.mp (by simpa using hld)
  refine ⟨⟨s3, temp, fmtFor L tr dt, dt, false⟩, ?_⟩
  rw [extractRecord.eq_def]
  rw [jlookupD] at hldq
  simp [hm, hjt, hjv, hldq, hsv, hdt, htemp, jlookupD, pyIndexStr, selectVal, tryParseRow]

/-- A malformed record (missing timestamp, status-only, or no numeric leaf)
is skipped, never a batch-level failure. -/
theorem extractRecord_of_malformed (L : PyLib) (tr : String) {k : String} {v : JVal}
    (h : malformedRec L (k, v) = true) :
    extractRecord L tr k v = Except.ok none := by
  rw [malformedRec, Bool.or_eq_true] at h
  rcases h with h | h
  · rcases v with _ | b | q | s0 | xs | fields
    case null => simp [missingTimestampRec] at h
    case bool => simp [missingTimestampRec] at h
    case num => simp [missingTimestampRec] at h
    case str => simp [missingTimestampRec] at h
    case arr => simp [missingTimestampRec] at h
    case obj =>
    simp only [missingTimestampRec, hasKey, Bool.and_eq_true, Bool.not_eq_true'] at h
    obtain ⟨hm, hts⟩ := h
    rcases hjt : jlookup fields "timestamp" with _ | tv
    · rw [extractRecord.eq_def]
      simp [hm, hjt]
    · rw [hjt] at hts; simp at hts
  · rcases v with _ | b | q | s0 | xs | fields
    case null => simp [noNumericLeafRec] at h
    case bool => simp [noNumericLeafRec] at h
    case num => simp [noNumericLeafRec] at h
    case str => simp [noNumericLeafRec] at h
    case arr => simp [noNumericLeafRec] at h
    case obj =>
    simp only [noNumericLeafRec, hasKey, Bool.and_eq_true, Bool.not_eq_true'] at h
    obtain ⟨hm, hhk, hnn⟩ := h
    rcases hldq : jlookupD fields "logDatum" (.obj []) with _ | b4 | q4 | s4 | xs4 | lf
    case null => rw [hldq] at hnn; simp at hnn
    case bool => rw [hldq] at hnn; simp at hnn
    case num => rw [hldq] at hnn; simp at hnn
    case str => rw [hldq] at hnn; simp at hnn
    case arr => rw [hldq] at hnn; simp at hnn
    case obj =>
    rw [hldq] at hnn
    simp only [] at hnn
    rcases hsv : objSelectVal L lf with _ | v0
    · rcases hjt : jlookup fields "timestamp" with _ | tv
      · rw [hjt] at hhk; simp at hhk
      · rw [extractRecord.eq_def]
        simp [hm, hjt, hldq, selectVal, hsv]
    · rw [hsv] at hnn; simp at hnn

/-- C7: a page made of well-formed and malformed records (missing timestamp,
status-only, or no numeric leaf) extracts without batch-level failure, and
the number of extracted samples is exactly the number of well-formed
records — for any number of malformed records. -/
theorem extract_yields_exactly_wellformed (L : PyLib) (tr : String) :
    ∀ page : List (String × JVal),
      (∀ e ∈ page, wellFormedRec L e = true ∨ malformedRec L e = true) →
      ∃ l, extractRows L tr page = Except.ok l ∧
        l.length = page.countP (fun e => wellFormedRec L e)
  | [], _ => ⟨[], rfl, rfl⟩
  | (k, v) :: rest, h => by
    obtain ⟨l, hl, hlen⟩ := extract_yields_exactly_wellformed L tr rest
      (fun x hx => h x (List.mem_cons_of_mem _ hx))
    rcases hwf : wellFormedRec L (k, v) with _ | _
    · have hmal : malformedRec L (k, v) = true := by
        rcases h (k, v) (List.mem_cons_self _ _) with hw | hm
        · rw [hwf] at hw; exact absurd hw (by simp)
        · exact hm
      refine ⟨l, ?_, ?_⟩
      · simp only [extractRows, extractRecord_of_malformed L tr hmal, hl]
      · rw [List.countP_cons]
        simp [hwf, hlen]
    · obtain ⟨r, hr⟩ := extractRecord_of_wellFormed L tr hwf
      refine ⟨r :: l, ?_, ?_⟩
      · simp only [extractRows, hr, hl]
      · rw [List.countP_cons]
        simp [hwf, hlen]

/-- Witness for C7 on a page with 3 well-formed and 4 malformed records,
including a record extracted only through the null fallthrough of the
`real-value` branch. -/
theorem extract_yields_exactly_wellformed_witness :
    (∀ e ∈ mixedPage, wellFormedRec lib0 e = true ∨ malformedRec lib0 e = true) ∧
    ∃ l, extractRows lib0 "7d" mixedPage = Except.ok l ∧
      l.length = mixedPage.countP (fun e => wellFormedRec lib0 e) :=
  ⟨by with_unfolding_all decide,
   extract_yields_exactly_wellformed lib0 "7d" mixedPage (by with_unfolding_all decide)⟩

/-- C1 (amended): one call of the trend route performs exactly one upstream
fetch, issued with the initial query parameters, and never follows a
continuation reference: the response is entirely determined by the answer to
that single fetch, so two upstreams answering the initial query identically
give identical responses no matter what their continuation pages hold. -/
theorem trend_result_ignores_continuation (L : PyLib) (tr : String) (now : ℚ)
    (u u' : Upstream) (h : u.fetch = u'.fetch) :
    (trendFetchCalls L tr now u).length = 1 ∧
    get_trend_data L tr now u = get_trend_data L tr now u' := by
  refine ⟨rfl, ?_⟩
  rw [get_trend_data, get_trend_data, trendBody, trendBody, h]

/-- C1 counterexample: on a three-page continuation chain (pages 1 and 2
carry a `next` reference, page 3 does not) the route fetches exactly 1 page,
not the 3 pages the claim states. -/
theorem trend_fetches_one_page_counterexample :
    (trendFetchCalls lib0 "7d" 0 chainUpstream).length = 1 ∧
    ¬ ((trendFetchCalls lib0 "7d" 0 chainUpstream).length = 3) :=
  ⟨rfl, by decide⟩

/-- Witness for C1 on the three-page chain: altering the continuation pages
does not change the response. -/
theorem trend_result_ignores_continuation_witness :
    chainUpstream.fetch = chainUpstreamAlt.fetch ∧
    ((trendFetchCalls lib0 "7d" 0 chainUpstream).length = 1 ∧
     get_trend_data lib0 "7d" 0 chainUpstream = get_trend_data lib0 "7d" 0 chainUpstreamAlt) :=
  ⟨rfl, trend_result_ignores_continuation lib0 "7d" 0 chainUpstream chainUpstreamAlt rfl⟩

/-- C8: the trend route always answers with a well-formed body — either the
success shape carrying the requested range, or the error shape
`{error, records: [], total_records: 0, actual_range: 'Error'}` — and
whenever the single upstream fetch fails (transport failure, non-2xx status,
unparseable payload) the answer is that error shape.  No exception escapes:
`get_trend_data` is a total function into `Response`. -/
theorem trend_endpoint_wellformed_response (L : PyLib) (tr : String) (now : ℚ)
    (u : Upstream) :
    ((∃ m, u.fetch (buildParams L tr now) = FetchResult.transportError m ∨
          u.fetch (buildParams L tr now) = FetchResult.httpError m ∨
          u.fetch (buildParams L tr now) = FetchResult.badJson m) →
      ∃ m, get_trend_data L tr now u = Response.err m [] 0 "Error") ∧
    ((∃ recs a s e n, get_trend_data L tr now u = Response.ok recs tr a s e n) ∨
      ∃ m, get_trend_data L tr now u = Response.err m [] 0 "Error") := by
  constructor
  · rintro ⟨m, hm | hm | hm⟩ <;> exact ⟨m, by simp only [get_trend_data, trendBody, hm]⟩
  · rcases hf : u.fetch (buildParams L tr now) with m | m | m | page
    · exact Or.inr ⟨m, by simp only [get_trend_data, trendBody, hf]⟩
    · exact Or.inr ⟨m, by simp only [get_trend_data, trendBody, hf]⟩
    · exact Or.inr ⟨m, by simp only [get_trend_data, trendBody, hf]⟩
    · rcases hscan : (if tr = "7d" then debugScan L page else Except.ok ()) with e | uu
      · exact Or.inr ⟨e, by simp only [get_trend_data, trendBody, hf, hscan]⟩
      · rcases hx : extractRows L tr page with e | rows
        · exact Or.inr ⟨e, by simp only [get_trend_data, trendBody, hf, hscan, hx]⟩
        · have hred : get_trend_data L tr now u = assembleResponse L tr now rows := by
            simp only [get_trend_data, trendBody, hf, hscan, hx]
          exact Or.inl ⟨_, _, _, _, _, hred⟩

/-- Witness for C8 on an upstream whose fetch fails at the transport layer. -/
theorem trend_endpoint_wellformed_response_witness :
    (∃ m, failUpstream.fetch (buildParams lib0 "1h" 0) = FetchResult.transportError m ∨
         failUpstream.fetch (buildParams lib0 "1h" 0) = FetchResult.httpError m ∨
         failUpstream.fetch (buildParams lib0 "1h" 0) = FetchResult.badJson m) ∧
    ∃ m, get_trend_data lib0 "1h" 0 failUpstream = Response.err m [] 0 "Error" :=
  ⟨⟨"connection refused", Or.inl rfl⟩,
   (trend_endpoint_wellformed_response lib0 "1h" 0 failUpstream).1
     ⟨"connection refused", Or.inl rfl⟩⟩

/-- C10: for every range other than `7d` (including the unrecognized-range
fallback), the answered records are exactly the extracted, normalized,
time-sorted samples — no interpolated sample is synthesized and no
decimation occurs, however many records the upstream returns. -/
theorem non_7d_records_passthrough (L : PyLib) (tr : String) (now : ℚ) (u : Upstream)
    (page : List (String × JVal)) (rows : List Row)
    (h7 : tr ≠ "7d")
    (hf : u.fetch (buildParams L tr now) = FetchResult.ok page)
    (hx : extractRows L tr page = Except.ok rows) :
    get_trend_data L tr now u =
      Response.ok ((List.insertionSort rowLE rows).map toOut) tr
        (if ((List.insertionSort rowLE rows).map toOut).isEmpty then "No data"
         else toString ((List.insertionSort rowLE rows).map toOut).length ++ " points")
        (L.iso (startTime tr now) ++ "Z") (L.iso now ++ "Z")
        ((List.insertionSort rowLE rows).map toOut).length ∧
    ∀ r ∈ (List.insertionSort rowLE rows).map toOut, r.interpolated = false := by
  constructor
  · simp only [get_trend_data, trendBody, hf]
    rw [if_neg h7]
    simp only [hx, assembleResponse]
    rw [if_neg (show ¬ (tr = "7d" ∧ 1 < (List.insertionSort rowLE rows).length) from
          fun hc => h7 hc.1),
      if_neg h7]
  · intro r hr
    obtain ⟨r0, hr0, rfl⟩ := List.mem_map.mp hr
    have hr0' : r0 ∈ rows := ((List.perm_insertionSort rowLE rows).mem_iff).mp hr0
    exact extractRows_interpolated_false L tr page rows hx r0 hr0'

/-- Witness for C10 on a `1h` request over a one-record page. -/
theorem non_7d_records_passthrough_witness :
    (("1h" : String) ≠ "7d" ∧
     okUpstream.fetch (buildParams lib0 "1h" 0) = FetchResult.ok [("1", mkRec 70)] ∧
     extractRows lib0 "1h" [("1", mkRec 70)] = Except.ok [extractedRow0]) ∧
    (get_trend_data lib0 "1h" 0 okUpstream =
      Response.ok ((List.insertionSort rowLE [extractedRow0]).map toOut) "1h"
        (if ((List.insertionSort rowLE [extractedRow0]).map toOut).isEmpty then "No data"
         else toString ((List.insertionSort rowLE [extractedRow0]).map toOut).length
           ++ " points")
        (lib0.iso (startTime "1h" 0) ++ "Z") (lib0.iso 0 ++ "Z")
        ((List.insertionSort rowLE [extractedRow0]).map toOut).length ∧
     ∀ r ∈ (List.insertionSort rowLE [extractedRow0]).map toOut, r.interpolated = false) :=
  ⟨⟨by decide, rfl, by with_unfolding_all rfl⟩,
   non_7d_records_passthrough lib0 "1h" 0 okUpstream [("1", mkRec 70)] [extractedRow0]
     (by decide) rfl (by with_unfolding_all rfl)⟩
